import Mathlib

/-!
Verification of the ETL lambda pipeline (`lambda_function.py`) against its
specification. The source is a single linear pipeline: load a TOML config,
download a file over HTTP, connect to Snowflake, and run a fixed sequence of
SQL statements that stage the file and reload the destination table.

The development below is a shallow embedding of that source. External
effects (HTTP, local filesystem, environment variables, warehouse session)
are modelled as explicit state passed through pure functions; Python
exceptions are modelled as `Except String`.
-/

set_option autoImplicit false

namespace ETL

/-! ## File Fetcher (`download_file`, lines 11-16)

The HTTP layer is modelled by a function from URLs to responses; the local
filesystem by a partial map from paths to byte contents (bytes as `Nat`).
-/

/-- Response of an HTTP GET: final status code and body bytes. -/
structure HttpResponse where
  status : Nat
  content : List Nat

/-- Local filesystem: a partial map from path to file bytes. -/
def FS : Type := String → Option (List Nat)

/-- Model of `requests.get(url)`: the ambient network `http` determines the
response for each URL. -/
def requests_get (http : String → HttpResponse) (url : String) : HttpResponse :=
  http url

/-- Model of `requests.Response.raise_for_status()`: the `requests` library
raises `HTTPError` exactly when the status code is in 400..599 (client or
server error); informational and redirect statuses do not raise. -/
def raise_for_status (status : Nat) : Except String Unit :=
  if 400 ≤ status ∧ status < 600 then
    Except.error ("HTTP Error for status " ++ toString status)
  else
    Except.ok ()

/-- Model of `download_file(url, destination_path)` (source lines 11-16): GET
the URL, call `raise_for_status`, and only then open the destination for
binary write and write the full response body. Returns the filesystem after
the call together with the call's outcome. -/
def download_file (http : String → HttpResponse) (url : String)
    (destination_path : String) (fs : FS) : FS × Except String Unit :=
  let response := requests_get http url
  match raise_for_status response.status with
  | Except.error e => (fs, Except.error e)
  | Except.ok _ =>
      (fun p => if p = destination_path then some response.content else fs p,
       Except.ok ())

/-! ## Configuration (`config.toml` layout, `load_config`, lines 7-9)

The configuration document is a nested mapping with sections `local`,
`source` and `snowflake`. `local` is a Lean keyword, so the field holding
the `local` section is named `localSection`.
-/

/-- Section `local` of the configuration: `destination_folder`, `file_name`. -/
structure LocalSection where
  destination_folder : String
  file_name : String

/-- Section `source` of the configuration: `url`. -/
structure SourceSection where
  url : String

/-- Section `snowflake` of the configuration. -/
structure SnowflakeSection where
  account : String
  warehouse : String
  database : String
  schema : String
  role : String
  stage_name : String
  table : String

/-- The parsed configuration document. `localSection` models `config['local']`. -/
structure Config where
  localSection : LocalSection
  source : SourceSection
  snowflake : SnowflakeSection

/-! ## Local path computation (`upload_file_to_snowflake`, line 42) -/

/-- Model of `os.path.join(a, b)` on POSIX (CPython `posixpath.join` with one
extra component): if `b` starts with the separator it replaces the path;
otherwise it is appended, inserting `/` unless `a` is empty or already ends
with `/`. -/
def os_path_join (a b : String) : String :=
  if b.data.head? = some '/' then b
  else if a.data = [] ∨ a.data.getLast? = some '/' then a ++ b
  else a ++ "/" ++ b

/-- The local file path computed at source line 42:
`os.path.join(config['local']['destination_folder'], config['local']['file_name'])`. -/
def local_file_path (config : Config) : String :=
  os_path_join config.localSection.destination_folder config.localSection.file_name

/-! ## Warehouse Session (`establish_snowflake_connection`, lines 18-28) -/

/-- Process environment: a partial map from variable name to value. -/
def Env : Type := String → Option String

/-- Model of `os.getenv(name)`: `none` when the variable is unset, never an
exception. -/
def os_getenv (env : Env) (name : String) : Option String :=
  env name

/-- The keyword arguments passed to `snowflake.connector.connect` at source
lines 20-28. `user` and `password` are `Option` because `os.getenv` can
yield `None`, which is passed through as-is. -/
structure ConnectArgs where
  user : Option String
  password : Option String
  account : String
  warehouse : String
  database : String
  schema : String
  role : String

/-- The argument record built by `establish_snowflake_connection` before the
connect call: credentials from the environment, the rest from the config. -/
def connect_args (env : Env) (config : Config) : ConnectArgs :=
  { user := os_getenv env "SNOWFLAKE_USER"
    password := os_getenv env "SNOWFLAKE_PASSWORD"
    account := config.snowflake.account
    warehouse := config.snowflake.warehouse
    database := config.snowflake.database
    schema := config.snowflake.schema
    role := config.snowflake.role }

/-- Model of `establish_snowflake_connection(config)` (lines 18-28): the
argument record is computed totally (environment lookups cannot raise) and
handed to the warehouse client's `connect`, which is the only failure
point. `connect` is abstract: any behaviour of the client is allowed. -/
def establish_snowflake_connection {Conn : Type}
    (connect : ConnectArgs → Except String Conn) (env : Env) (config : Config) :
    Except String Conn :=
  connect (connect_args env config)

/-! ## Stage-and-Load Sequencer (`prepare_snowflake_stage`, lines 30-37)

The statements issued through `cursor.execute` are embedded as an abstract
syntax `Stmt`; `renderStmt` reproduces the exact SQL text the Python
f-strings build, and `prepare_snowflake_stage` is the ordered trace of
executed statements.
-/

/-- The `ON_ERROR` copy option: `'CONTINUE'` skips rows that fail to parse,
`'ABORT_STATEMENT'` (Snowflake's default) fails the whole load. -/
inductive OnError where
  | continueLoad
  | abortStatement
deriving DecidableEq, Repr

/-- SQL statements the sequencer can issue against the warehouse session. -/
inductive Stmt where
  | createFileFormat (name : String) (fieldDelimiter : Char)
  | createStage (stageName : String) (fileFormat : String)
  | put (filePath : String) (stageName : String)
  | listStage (stageName : String)
  | truncateTable (schema : String) (table : String)
  | copyInto (schema : String) (table : String) (stageName : String)
      (fileName : String) (fileFormat : String) (onError : OnError)
deriving DecidableEq, Repr

/-- SQL text of the `ON_ERROR` option. -/
def renderOnError : OnError → String
  | OnError.continueLoad => "CONTINUE"
  | OnError.abortStatement => "ABORT_STATEMENT"

/-- The exact SQL text built by the Python f-strings at source lines 32-37
(apostrophes written as `\x27`). -/
def renderStmt : Stmt → String
  | Stmt.createFileFormat name d =>
      "CREATE OR REPLACE FILE FORMAT " ++ name ++ " TYPE =\x27CSV\x27 FIELD_DELIMITER = \x27"
        ++ String.mk [d] ++ "\x27;"
  | Stmt.createStage s fmt =>
      "CREATE OR REPLACE STAGE " ++ s ++ " FILE_FORMAT = " ++ fmt
  | Stmt.put path s =>
      "PUT \x27file://" ++ path ++ "\x27 @" ++ s
  | Stmt.listStage s =>
      "LIST @" ++ s
  | Stmt.truncateTable sch tb =>
      "TRUNCATE TABLE " ++ sch ++ "." ++ tb ++ ";"
  | Stmt.copyInto sch tb s fn fmt onErr =>
      "COPY INTO " ++ sch ++ "." ++ tb ++ " FROM @" ++ s ++ "/" ++ fn
        ++ " FILE_FORMAT = " ++ fmt ++ ", ON_ERROR = \x27" ++ renderOnError onErr ++ "\x27;"

/-- Model of `prepare_snowflake_stage(cursor, stage_name, schema, table,
file_path, file_name)` (source lines 30-37): the ordered list of statements
passed to `cursor.execute`. -/
def prepare_snowflake_stage (stage_name schema table file_path file_name : String) :
    List Stmt :=
  [ Stmt.createFileFormat "COMMA_CSV" ','
  , Stmt.createStage stage_name "COMMA_CSV"
  , Stmt.put file_path stage_name
  , Stmt.listStage stage_name
  , Stmt.truncateTable schema table
  , Stmt.copyInto schema table stage_name file_name "COMMA_CSV" OnError.continueLoad ]

/-- The SQL texts of the sequencer's statements, in execution order. -/
def prepare_snowflake_stage_sql (stage_name schema table file_path file_name : String) :
    List String :=
  (prepare_snowflake_stage stage_name schema table file_path file_name).map renderStmt

/-! ## Warehouse semantics

A small operational model of the warehouse objects the statements touch:
defined file formats, stages, staged files and tables. Tables are keyed by
`(schema, table)`; a table's contents are rows of string fields and its
column count is given by `arity`. Local CSV files are maps from path to
their list of lines.
-/

/-- A table row: the list of its fields. -/
abbrev Row := List String

/-- Key of a destination table: `(schema, table)`. -/
abbrev TableKey := String × String

/-- Warehouse-side state. -/
structure Warehouse where
  formats : List String
  stages : List (String × String)
  staged : List (String × String × List String)
  tables : TableKey → List Row
  arity : TableKey → Nat

/-- Local CSV files visible to `PUT`: path to list of lines. -/
def LocalFiles : Type := String → Option (List String)

/-- Splits the characters of a CSV line at each delimiter occurrence. -/
def splitFieldsAux (delim : Char) : List Char → List (List Char)
  | [] => [[]]
  | c :: cs =>
      match splitFieldsAux delim cs with
      | [] => [[]]
      | f :: rest => if c = delim then [] :: f :: rest else (c :: f) :: rest

/-- Parses one line of a staged file under the `COMMA_CSV` format
(`TYPE='CSV' FIELD_DELIMITER=','`): the comma-separated fields. -/
def parseCsvLine (line : String) : Row :=
  (splitFieldsAux ',' line.data).map String.mk

/-- Characters after the last `/` of a path: the name under which `PUT`
stores a local file in a stage. -/
def basename (path : String) : String :=
  String.mk (path.data.foldl (fun acc c => if c = '/' then [] else acc ++ [c]) [])

/-- Whether a stage with the given name has been defined. -/
def stageDefined (w : Warehouse) (s : String) : Bool :=
  w.stages.any (fun p => p.1 == s)

/-- Finds the most recently staged file with the given stage and file name. -/
def findStaged (s fn : String) : List (String × String × List String) → Option (List String)
  | [] => none
  | (s2, fn2, lines) :: rest =>
      if s2 == s && fn2 == fn then some lines else findStaged s fn rest

/-- One step of warehouse execution: the effect of a single statement on the
warehouse state, or the error it raises. `CREATE OR REPLACE` statements
always succeed; `PUT` needs the local file and the stage to exist; `COPY`
parses each staged line and, under `ON_ERROR = 'CONTINUE'`, keeps exactly
the rows whose field count matches the table's arity, skipping the rest. -/
def execStmt (files : LocalFiles) (w : Warehouse) : Stmt → Except String Warehouse
  | Stmt.createFileFormat name _ =>
      Except.ok { w with formats := name :: w.formats }
  | Stmt.createStage s fmt =>
      if w.formats.contains fmt then
        Except.ok { w with stages := (s, fmt) :: w.stages }
      else Except.error "file format does not exist"
  | Stmt.put path s =>
      match files path with
      | none => Except.error "local file not found"
      | some lines =>
          if stageDefined w s then
            Except.ok { w with staged := (s, basename path, lines) :: w.staged }
          else Except.error "stage does not exist"
  | Stmt.listStage s =>
      if stageDefined w s then Except.ok w else Except.error "stage does not exist"
  | Stmt.truncateTable sch tb =>
      Except.ok { w with tables := fun k => if k = (sch, tb) then [] else w.tables k }
  | Stmt.copyInto sch tb s fn fmt onErr =>
      if w.formats.contains fmt then
        match findStaged s fn w.staged with
        | none => Except.error "staged file not found"
        | some lines =>
            let rows := lines.map parseCsvLine
            let n := w.arity (sch, tb)
            match onErr with
            | OnError.continueLoad =>
                Except.ok { w with tables := fun k =>
                  (if k = (sch, tb) then w.tables k ++ rows.filter (fun r => r.length == n)
                   else w.tables k) }
            | OnError.abortStatement =>
                if rows.all (fun r => r.length == n) then
                  Except.ok { w with tables := fun k =>
                    (if k = (sch, tb) then w.tables k ++ rows else w.tables k) }
                else Except.error "parse error in staged file"
      else Except.error "file format does not exist"

/-- Runs a statement list in order, stopping at the first raising statement:
returns the warehouse state reached and the error, if any. There is no
transactional wrapping: effects of completed statements persist. -/
def runStmts (files : LocalFiles) (w : Warehouse) : List Stmt → Warehouse × Option String
  | [] => (w, none)
  | s :: rest =>
      match execStmt files w s with
      | Except.error e => (w, some e)
      | Except.ok w2 => runStmts files w2 rest

/-- Runs a statement list like `runStmts`, but the statement at index `fault`
raises instead of executing (modelling a mid-sequence statement error such
as lost connectivity or missing permissions). -/
def runStmtsWithFault (files : LocalFiles) (w : Warehouse) (fault : Nat) :
    List Stmt → Warehouse × Option String
  | [] => (w, none)
  | s :: rest =>
      if fault = 0 then (w, some "injected statement failure")
      else
        match execStmt files w s with
        | Except.error e => (w, some e)
        | Except.ok w2 => runStmtsWithFault files w2 (fault - 1) rest

/-! ## Resource scoping (`upload_file_to_snowflake`, lines 46-55)

The two nested `with` blocks translate to scopes that run their close action
on every exit path, normal or raising; the Snowflake connector's context
managers close the connection and the cursor in their `__exit__`.
-/

/-- Open/closed state of the connection and cursor handles. -/
structure SessionState where
  connClosed : Bool
  cursorClosed : Bool
deriving DecidableEq, Repr

/-- Python `with` semantics: run the body, then run the close action whether
the body succeeded or raised, and propagate the body's outcome. -/
def with_scope (close : SessionState → SessionState)
    (body : SessionState → SessionState × Except String Unit)
    (s : SessionState) : SessionState × Except String Unit :=
  let r := body s
  (close r.1, r.2)

/-- Effect of `SnowflakeConnection.__exit__`: the connection is closed. -/
def close_conn (s : SessionState) : SessionState :=
  { s with connClosed := true }

/-- Effect of `SnowflakeCursor.__exit__`: the cursor is closed. -/
def close_cursor (s : SessionState) : SessionState :=
  { s with cursorClosed := true }

/-- Model of the warehouse-interaction block of `upload_file_to_snowflake`
(source lines 46-55): `with establish_snowflake_connection(config) as conn:
with conn.cursor() as cursor: prepare_snowflake_stage(...)`. Both handles
start open; `stage_result` is the outcome of the `prepare_snowflake_stage`
call (normal completion or a raised statement error). -/
def upload_file_to_snowflake_block (stage_result : Except String Unit) :
    SessionState × Except String Unit :=
  with_scope close_conn
    (fun s1 => with_scope close_cursor (fun s2 => (s2, stage_result)) s1)
    { connClosed := false, cursorClosed := false }

/-! ## Top-level wrapper (`lambda_handler`, lines 59-65) -/

/-- Structured result returned by the lambda entry point. -/
structure LambdaResponse where
  statusCode : Nat
  body : String

/-- Model of `lambda_handler(event, context)` (source lines 59-65): run the
pipeline (`upload_file_to_snowflake`), returning 200 on success; catch any
exception `e` and return 500 with a body embedding `str(e)`. The `pipeline`
argument is the outcome of the pipeline run, with the raised exception's
text as the `error` payload. The function is total: no exception escapes. -/
def lambda_handler (pipeline : Except String Unit) : LambdaResponse :=
  match pipeline with
  | Except.ok _ =>
      { statusCode := 200, body := "File uploaded to Snowflake successfully." }
  | Except.error e =>
      { statusCode := 500, body := "Error uploading file to Snowflake: " ++ e }

/-! ## Concrete fixtures used to instantiate the theorems -/

/-- A filesystem with no files. -/
def emptyFS : FS := fun _ => none

/-- A filesystem holding bytes `[9, 9]` at path `"d"`. -/
def preFS : FS := fun p => if p == "d" then some [9, 9] else none

/-- A network answering every GET with status 200 and body `[1, 2, 3]`. -/
def http200 : String → HttpResponse := fun _ => { status := 200, content := [1, 2, 3] }

/-- A network answering every GET with status 304 (non-2xx, but not an HTTP
error status) and body `[7]`. -/
def http304 : String → HttpResponse := fun _ => { status := 304, content := [7] }

/-- A network answering every GET with status 404 and body `[7]`. -/
def http404 : String → HttpResponse := fun _ => { status := 404, content := [7] }

/-- A network answering every GET with status 500 and body `[7]`. -/
def http500 : String → HttpResponse := fun _ => { status := 500, content := [7] }

/-- Local CSV files: `/tmp/f.csv` has three lines, of which the second has
the wrong field count for a two-column table. -/
def exampleFiles : LocalFiles :=
  fun p => if p == "/tmp/f.csv" then some ["a,b", "x", "c,d"] else none

/-- A warehouse with no formats or stages, a nonempty two-column destination
table. -/
def exampleWarehouse : Warehouse :=
  { formats := []
    stages := []
    staged := []
    tables := fun _ => [["old1", "old2"]]
    arity := fun _ => 2 }

/-- An environment with no variables set. -/
def exampleEnvEmpty : Env := fun _ => none

/-- A sample parsed configuration. -/
def exampleConfig : Config :=
  { localSection := { destination_folder := "/tmp", file_name := "f.csv" }
    source := { url := "http://example.com/f.csv" }
    snowflake :=
      { account := "acct", warehouse := "wh", database := "db", schema := "SCH"
        role := "r", stage_name := "S", table := "TBL" } }

/-- A configuration whose `file_name` is an absolute path. -/
def exampleConfigAbs : Config :=
  { exampleConfig with localSection := { destination_folder := "/tmp", file_name := "/abs.csv" } }

/-! ## Helper lemmas -/

/-- The status check succeeds outside 400..599. -/
theorem raise_for_status_ok (s : Nat) (h : ¬ (400 ≤ s ∧ s < 600)) :
    raise_for_status s = Except.ok () := by
  simp [raise_for_status, h]

/-- The status check raises inside 400..599. -/
theorem raise_for_status_err (s : Nat) (h : 400 ≤ s ∧ s < 600) :
    raise_for_status s = Except.error ("HTTP Error for status " ++ toString s) := by
  simp [raise_for_status, h]

/-! ## Claim theorems -/

/-- C1, counterexample: `prepare_snowflake_stage` issues six statements, not
five — the claim's count (and its five-step order, which omits the `LIST`
between upload and truncate) is false on the code. -/
theorem prepare_stage_not_five_statements :
    ((prepare_snowflake_stage "S" "SCH" "TBL" "/tmp/f.csv" "f.csv").length == 5) = false
    ∧ (prepare_snowflake_stage "S" "SCH" "TBL" "/tmp/f.csv" "f.csv").length = 6 := by
  constructor <;> rfl

/-- C1, amended: the Stage-and-Load Sequencer issues a fixed sequence of
exactly six SQL statements, in the order: define/replace a file format,
define/replace a stage, upload the local file into the stage, list the
stage contents, truncate the destination table, copy staged data into it. -/
theorem prepare_stage_issues_six_statements
    (stage_name schema table file_path file_name : String) :
    prepare_snowflake_stage_sql stage_name schema table file_path file_name =
      [ "CREATE OR REPLACE FILE FORMAT COMMA_CSV TYPE =\x27CSV\x27 FIELD_DELIMITER = \x27,\x27;"
      , "CREATE OR REPLACE STAGE " ++ stage_name ++ " FILE_FORMAT = COMMA_CSV"
      , "PUT \x27file://" ++ file_path ++ "\x27 @" ++ stage_name
      , "LIST @" ++ stage_name
      , "TRUNCATE TABLE " ++ schema ++ "." ++ table ++ ";"
      , "COPY INTO " ++ schema ++ "." ++ table ++ " FROM @" ++ stage_name ++ "/" ++ file_name
          ++ " FILE_FORMAT = COMMA_CSV, ON_ERROR = \x27CONTINUE\x27;" ]
    ∧ (prepare_snowflake_stage stage_name schema table file_path file_name).length = 6 := by
  constructor
  · simp [prepare_snowflake_stage_sql, prepare_snowflake_stage, renderStmt, renderOnError,
      String.append_assoc]
  · rfl

/-- C3: when the GET returns a 2xx status, `download_file` returns normally
and the bytes stored at the destination path equal the response body. -/
theorem download_file_writes_response_body (http : String → HttpResponse)
    (url destination_path : String) (fs : FS)
    (hlo : 200 ≤ (http url).status) (hhi : (http url).status ≤ 299) :
    (download_file http url destination_path fs).2 = Except.ok ()
    ∧ (download_file http url destination_path fs).1 destination_path
        = some (http url).content := by
  have hok := raise_for_status_ok (http url).status (by omega)
  constructor <;> simp [download_file, requests_get, hok]

/-- C3, witness at a concrete 200 response. -/
theorem download_file_writes_response_body_witness :
    (download_file http200 "u" "d" emptyFS).2 = Except.ok ()
    ∧ (download_file http200 "u" "d" emptyFS).1 "d" = some [1, 2, 3] :=
  download_file_writes_response_body http200 "u" "d" emptyFS (by decide) (by decide)

/-- C4, counterexample: a 304 response is not 2xx, yet `download_file` does
not raise and does write the response body to the destination path. -/
theorem download_file_304_succeeds_and_writes :
    (download_file http304 "u" "d" emptyFS).2 = Except.ok ()
    ∧ (download_file http304 "u" "d" emptyFS).1 "d" = some [7] := by
  constructor <;> rfl

/-- C4, amended: for every HTTP response with a 4xx or 5xx status (the
statuses `raise_for_status` treats as errors), `download_file` raises and
performs no write: the filesystem is returned unchanged. -/
theorem download_file_4xx_5xx_raises_no_write (http : String → HttpResponse)
    (url destination_path : String) (fs : FS)
    (hlo : 400 ≤ (http url).status) (hhi : (http url).status < 600) :
    (∃ e, (download_file http url destination_path fs).2 = Except.error e)
    ∧ (download_file http url destination_path fs).1 = fs := by
  have herr := raise_for_status_err (http url).status ⟨hlo, hhi⟩
  refine ⟨⟨"HTTP Error for status " ++ toString (http url).status, ?_⟩, ?_⟩ <;>
    simp [download_file, requests_get, herr]

/-- C4, witness at a concrete 404 response. -/
theorem download_file_4xx_5xx_raises_no_write_witness :
    (∃ e, (download_file http404 "u" "d" emptyFS).2 = Except.error e)
    ∧ (download_file http404 "u" "d" emptyFS).1 = emptyFS :=
  download_file_4xx_5xx_raises_no_write http404 "u" "d" emptyFS (by decide) (by decide)

/-- C8, counterexample: a 304 response is not 2xx, yet `download_file`
overwrites the pre-existing file at the destination path (bytes `[9, 9]`
become the response body `[7]`). -/
theorem download_file_304_overwrites_existing :
    preFS "d" = some [9, 9]
    ∧ (download_file http304 "u" "d" preFS).1 "d" = some [7] := by
  constructor <;> rfl

/-- C8, amended: for every HTTP response with a 4xx or 5xx status, the
status check happens before the destination is opened for writing, so every
path — in particular a pre-existing destination file — is left unchanged. -/
theorem download_file_4xx_5xx_preserves_files (http : String → HttpResponse)
    (url destination_path p : String) (fs : FS)
    (hlo : 400 ≤ (http url).status) (hhi : (http url).status < 600) :
    (download_file http url destination_path fs).1 p = fs p := by
  have herr := raise_for_status_err (http url).status ⟨hlo, hhi⟩
  simp [download_file, requests_get, herr]

/-- C8, witness: a 500 response leaves the pre-existing file at `"d"` intact. -/
theorem download_file_4xx_5xx_preserves_files_witness :
    (download_file http500 "u" "d" preFS).1 "d" = preFS "d" :=
  download_file_4xx_5xx_preserves_files http500 "u" "d" "d" preFS (by decide) (by decide)

/-- C2: in the sequencer's statement order, the `TRUNCATE` of the destination
table immediately precedes the final `COPY`; and if the statement after the
truncate raises (fault injected at index 5, the copy), the run stops with
an error and leaves the destination table truncated (empty), with no
rollback. The hypothesis only ensures the earlier `PUT` finds the local
file, so that execution really reaches the point after the truncate. -/
theorem truncate_before_copy_no_rollback
    (stage_name schema table file_path file_name : String)
    (files : LocalFiles) (w : Warehouse) (lines : List String)
    (hfile : files file_path = some lines) :
    (prepare_snowflake_stage stage_name schema table file_path file_name).drop 4 =
      [ Stmt.truncateTable schema table
      , Stmt.copyInto schema table stage_name file_name "COMMA_CSV" OnError.continueLoad ]
    ∧ ((runStmtsWithFault files w 5
        (prepare_snowflake_stage stage_name schema table file_path file_name)).2).isSome = true
    ∧ (runStmtsWithFault files w 5
        (prepare_snowflake_stage stage_name schema table file_path file_name)).1.tables
        (schema, table) = [] := by
  refine ⟨rfl, ?_, ?_⟩ <;>
    simp [prepare_snowflake_stage, runStmtsWithFault, execStmt, stageDefined, hfile]

/-- C2, witness: concrete run over the example fixtures, faulting the copy. -/
theorem truncate_before_copy_no_rollback_witness :
    ((runStmtsWithFault exampleFiles exampleWarehouse 5
      (prepare_snowflake_stage "S" "SCH" "TBL" "/tmp/f.csv" "f.csv")).2).isSome = true
    ∧ (runStmtsWithFault exampleFiles exampleWarehouse 5
        (prepare_snowflake_stage "S" "SCH" "TBL" "/tmp/f.csv" "f.csv")).1.tables
        ("SCH", "TBL") = [] := by
  have h := truncate_before_copy_no_rollback "S" "SCH" "TBL" "/tmp/f.csv" "f.csv"
    exampleFiles exampleWarehouse ["a,b", "x", "c,d"] (by decide)
  exact ⟨h.2.1, h.2.2⟩

/-- C5: for every pipeline outcome, `lambda_handler` returns statusCode 200
with a success body when the pipeline completes, and statusCode 500 with a
body extending the raised exception's text when any step raises; the
handler is a total function, so no exception escapes it. -/
theorem lambda_handler_result (e : String) :
    lambda_handler (Except.ok ()) =
      { statusCode := 200, body := "File uploaded to Snowflake successfully." }
    ∧ (lambda_handler (Except.error e)).statusCode = 500
    ∧ (lambda_handler (Except.error e)).body = "Error uploading file to Snowflake: " ++ e :=
  ⟨rfl, rfl, rfl⟩

/-- C6: the sequencer's `CREATE STAGE` and final `COPY INTO` both name the
`COMMA_CSV` file format, the copy carries `ON_ERROR = 'CONTINUE'`, and under
the warehouse semantics the whole sequence completes with the destination
table holding exactly the staged rows whose field count matches the table's
arity — malformed rows are skipped, the load is not aborted. -/
theorem copy_same_format_continue_on_error
    (stage_name schema table file_path file_name : String)
    (files : LocalFiles) (w : Warehouse) (lines : List String)
    (hfile : files file_path = some lines)
    (hbn : basename file_path = file_name) :
    (prepare_snowflake_stage stage_name schema table file_path file_name).get? 1 =
      some (Stmt.createStage stage_name "COMMA_CSV")
    ∧ (prepare_snowflake_stage stage_name schema table file_path file_name).get? 5 =
      some (Stmt.copyInto schema table stage_name file_name "COMMA_CSV" OnError.continueLoad)
    ∧ (runStmts files w
        (prepare_snowflake_stage stage_name schema table file_path file_name)).2 = none
    ∧ (runStmts files w
        (prepare_snowflake_stage stage_name schema table file_path file_name)).1.tables
        (schema, table)
      = (lines.map parseCsvLine).filter
          (fun r => r.length == w.arity (schema, table)) := by
  refine ⟨rfl, rfl, ?_, ?_⟩ <;>
    simp [prepare_snowflake_stage, runStmts, execStmt, stageDefined, findStaged, hfile, hbn]

/-- C6, witness: a three-line CSV whose middle line has the wrong field count
loads exactly the two well-formed rows into the two-column table. -/
theorem copy_same_format_continue_on_error_witness :
    (runStmts exampleFiles exampleWarehouse
      (prepare_snowflake_stage "S" "SCH" "TBL" "/tmp/f.csv" "f.csv")).2 = none
    ∧ (runStmts exampleFiles exampleWarehouse
        (prepare_snowflake_stage "S" "SCH" "TBL" "/tmp/f.csv" "f.csv")).1.tables
        ("SCH", "TBL") = [["a", "b"], ["c", "d"]] := by
  have h := copy_same_format_continue_on_error "S" "SCH" "TBL" "/tmp/f.csv" "f.csv"
    exampleFiles exampleWarehouse ["a,b", "x", "c,d"] (by decide) (by decide)
  refine ⟨h.2.2.1, ?_⟩
  rw [h.2.2.2]
  decide

/-- C7: on every exit path of the warehouse-interaction block — normal
completion or an error raised by the staged statements — both the Snowflake
connection and the cursor end up closed, and the body's outcome is
propagated unchanged. -/
theorem connection_and_cursor_closed_on_exit (stage_result : Except String Unit) :
    (upload_file_to_snowflake_block stage_result).1.connClosed = true
    ∧ (upload_file_to_snowflake_block stage_result).1.cursorClosed = true
    ∧ (upload_file_to_snowflake_block stage_result).2 = stage_result :=
  ⟨rfl, rfl, rfl⟩

/-- C9: `establish_snowflake_connection` always reduces to the abstract
connect call on the computed argument record — the credential lookups
themselves cannot raise — and when `SNOWFLAKE_USER` or `SNOWFLAKE_PASSWORD`
is unset, the corresponding argument passed to connect is `none`. -/
theorem getenv_none_passed_to_connect {Conn : Type}
    (connect : ConnectArgs → Except String Conn) (env : Env) (config : Config) :
    establish_snowflake_connection connect env config = connect (connect_args env config)
    ∧ (env "SNOWFLAKE_USER" = none → (connect_args env config).user = none)
    ∧ (env "SNOWFLAKE_PASSWORD" = none → (connect_args env config).password = none) :=
  ⟨rfl,
   fun h => by simp [connect_args, os_getenv, h],
   fun h => by simp [connect_args, os_getenv, h]⟩

/-- C9, witness: with an empty environment both credentials are `none`. -/
theorem getenv_none_passed_to_connect_witness :
    (connect_args exampleEnvEmpty exampleConfig).user = none
    ∧ (connect_args exampleEnvEmpty exampleConfig).password = none := by
  have h := @getenv_none_passed_to_connect Unit
    (fun _ => Except.ok ()) exampleEnvEmpty exampleConfig
  exact ⟨h.2.1 rfl, h.2.2 rfl⟩

/-- C10: the local file path is `os.path.join` of the configured folder and
file name, and when the configured file name is an absolute path (starts
with `/`), the folder is ignored: the local path equals the file name. -/
theorem absolute_file_name_ignores_folder (config : Config)
    (habs : config.localSection.file_name.data.head? = some '/') :
    local_file_path config =
      os_path_join config.localSection.destination_folder config.localSection.file_name
    ∧ local_file_path config = config.localSection.file_name := by
  refine ⟨rfl, ?_⟩
  simp [local_file_path, os_path_join, habs]

/-- C10, witness: with `file_name = "/abs.csv"` the folder `"/tmp"` is
ignored. -/
theorem absolute_file_name_ignores_folder_witness :
    local_file_path exampleConfigAbs = "/abs.csv" := by
  have h := absolute_file_name_ignores_folder exampleConfigAbs (by decide)
  exact h.2

end ETL
